import Mathlib

/-!
# Verification of the go-hsdp-api CRUD pipeline

Shallow embedding of the resource services of the repository:
`iam/clients_service.go` (ApplicationClient CRUD), `notification/producer_service.go`
(Producer CRUD) and `internal.CheckResponse` (status-code checking with body
preservation).

Modelling conventions:
* Go `error` values are the inductive `GoError`; `nil` errors are `Option.none`.
* The transport step `client.do(req, &target)` is not itself under verification:
  each service function takes the outcome of every transport call it makes as an
  explicit environment (`DoOutcome`): the possibly-nil `*Response`, the possibly-nil
  error, and the value decoded into the target.  Likewise `newRequest` is modelled
  by an optional build error in a `CallEnv`.
* Every function additionally returns the trace of transport calls it performed
  (the requests handed to `client.do`), so that "no I/O occurred" and
  "a compensating delete was issued" are provable statements.
* Go nil slices are distinguished from empty slices by wrapping in `Option`
  where the source can observably return a nil slice.
* Go string length tags of the `validator` package count runes; `String.length`
  counts characters, which agrees.
-/

/-- A Go `error` value.  Sentinels mirror the named errors of the repository;
`wrapped ctx e` models `fmt.Errorf("ctx: %w", e)`; `runtimePanic` marks an
execution path on which the Go source would dereference a nil response. -/
inductive GoError where
  | errEmptyResults
  | errEmptyResult
  | errOperationFailed
  | errCouldNoReadResourceAfterCreate
  | ioEOF
  | validationError (violations : List String)
  | apiStatusError (method target : String) (status : Nat) (body : String)
  | transportError (msg : String)
  | decodeError (msg : String)
  | buildError (msg : String)
  | wrapped (context : String) (err : GoError)
  | runtimePanic
deriving Repr, DecidableEq

/-- An `*http.Response` as the services observe it: the status code and the
value of `Header.Get("Location")` (which is `""` when the header is absent). -/
structure Response where
  statusCode : Nat
  location : String
deriving Repr, DecidableEq

/-- Outcome of one `client.do(req, &target)` call, supplied by the environment:
the returned response (possibly nil), the returned error (possibly nil), and
the value that the call decoded into `target`. -/
structure DoOutcome (α : Type) where
  resp : Option Response
  err : Option GoError
  body : α
deriving Repr, DecidableEq

/-- Environment of a single newRequest-then-do operation: the possible
`newRequest` failure and the `do` outcome. -/
structure CallEnv (α : Type) where
  build : Option GoError
  outcome : DoOutcome α
deriving Repr, DecidableEq

/-- `iam.ApplicationClient` (clients_service.go:16-36).  `Type'` stands for the
Go field `Type` (a Lean keyword).  Integer lifetimes are `Int` (Go `int`). -/
structure ApplicationClient where
  ID : String
  ClientID : String
  Type' : String
  Name : String
  Password : String
  RedirectionURIs : List String
  ResponseTypes : List String
  Scopes : List String
  DefaultScopes : List String
  Disabled : Bool
  Description : String
  ApplicationID : String
  GlobalReferenceID : String
  ConsentImplied : Bool
  AccessTokenLifetime : Int
  RefreshTokenLifetime : Int
  IDTokenLifetime : Int
  Realms : List String
  MetaVersionID : String
  MetaLastModified : String
deriving Repr, DecidableEq

/-- `notification.Producer` (producer_service.go:20-31). -/
structure Producer where
  ID : String
  ResourceType : String
  ManagingOrganizationID : String
  ManagingOrganization : String
  ProducerProductName : String
  ProducerServiceName : String
  ProducerServiceInstanceName : String
  ProducerServiceBaseURL : String
  ProducerServicePathURL : String
  Description : String
deriving Repr, DecidableEq

/-- Body of an outbound request, as recorded in the trace. -/
inductive RequestBody where
  | empty
  | clientPayload (ac : ApplicationClient)
  | scopesPayload (scopes defaultScopes : List String)
  | producerPayload (p : Producer)
deriving Repr, DecidableEq

/-- One transport call: the request handed to `client.do`. -/
structure Request where
  service : String
  method : String
  path : String
  body : RequestBody
deriving Repr, DecidableEq

/-! ## Field validation (go-playground/validator tags)

The validator collects violations across fields in struct order; within one
field it reports the first failing tag only.  `required` on a string means
non-empty, on a slice non-empty; `min`/`max` on strings bound the rune count,
on ints the value; `required_without=ID` fires when `ID` is the zero value
(empty string); `required_with=ID` fires when `ID` is set. -/

/-- First failing tag of one field, rendered as `Field.tag`. -/
def firstViolation (field : String) (checks : List (Option String)) : List String :=
  match checks.filterMap id with
  | [] => []
  | v :: _ => [field ++ "." ++ v]

/-- Tag `required` on a string field. -/
def reqTag (s : String) : Option String :=
  if s = "" then some "required" else none

/-- Tag `min=n` on a string field (rune-count lower bound). -/
def minLenTag (n : Nat) (s : String) : Option String :=
  if s.length < n then some "min" else none

/-- Tag `max=n` on a string field (rune-count upper bound). -/
def maxLenTag (n : Nat) (s : String) : Option String :=
  if s.length > n then some "max" else none

/-- Tag `min=n` on an int field. -/
def minIntTag (n v : Int) : Option String :=
  if v < n then some "min" else none

/-- Tag `max=n` on an int field. -/
def maxIntTag (n v : Int) : Option String :=
  if v > n then some "max" else none

/-- Tag `required_without=ID` on a string field: required when `ID` is empty. -/
def requiredWithoutTag (other s : String) : Option String :=
  if other = "" ∧ s = "" then some "required_without" else none

/-- Tag `required_with=ID` on a slice field: required when `ID` is set. -/
def requiredWithListTag (other : String) (l : List String) : Option String :=
  if other ≠ "" ∧ l = [] then some "required_with" else none

/-- Violations of the `Password` field: `validate:"required_without=ID,max=16"`
(clients_service.go:21). -/
def passwordViolations (ac : ApplicationClient) : List String :=
  firstViolation "Password"
    [requiredWithoutTag ac.ID ac.Password, maxLenTag 16 ac.Password]

/-- `c.validate.Struct(ac)` for `iam.ApplicationClient`, from the struct tags of
clients_service.go:16-36; `[]` means a nil validation error. -/
def validateApplicationClient (ac : ApplicationClient) : List String :=
  firstViolation "ClientID"
    [reqTag ac.ClientID, minLenTag 5 ac.ClientID, maxLenTag 20 ac.ClientID]
  ++ firstViolation "Name" [reqTag ac.Name, minLenTag 5 ac.Name, maxLenTag 50 ac.Name]
  ++ passwordViolations ac
  ++ firstViolation "Description" [maxLenTag 250 ac.Description]
  ++ firstViolation "ApplicationID" [reqTag ac.ApplicationID]
  ++ firstViolation "GlobalReferenceID"
    [reqTag ac.GlobalReferenceID, minLenTag 3 ac.GlobalReferenceID,
      maxLenTag 50 ac.GlobalReferenceID]
  ++ firstViolation "AccessTokenLifetime"
    [minIntTag 0 ac.AccessTokenLifetime, maxIntTag 31536000 ac.AccessTokenLifetime]
  ++ firstViolation "RefreshTokenLifetime"
    [minIntTag 0 ac.RefreshTokenLifetime, maxIntTag 157680000 ac.RefreshTokenLifetime]
  ++ firstViolation "IDTokenLifetime"
    [minIntTag 0 ac.IDTokenLifetime, maxIntTag 31536000 ac.IDTokenLifetime]
  ++ firstViolation "Realms" [requiredWithListTag ac.ID ac.Realms]

/-- `p.validate.Struct(producer)` for `notification.Producer`, from the struct
tags of producer_service.go:20-31. -/
def validateProducer (p : Producer) : List String :=
  firstViolation "ManagingOrganizationID" [reqTag p.ManagingOrganizationID]
  ++ firstViolation "ProducerProductName" [reqTag p.ProducerProductName]
  ++ firstViolation "ProducerServiceName" [reqTag p.ProducerServiceName]
  ++ firstViolation "ProducerServiceInstanceName" [reqTag p.ProducerServiceInstanceName]
  ++ firstViolation "ProducerServiceBaseURL" [reqTag p.ProducerServiceBaseURL]
  ++ firstViolation "ProducerServicePathURL" [reqTag p.ProducerServicePathURL]

/-! ## IAM client service (clients_service.go) -/

/-- Result triple of operations returning `(*ApplicationClient, *Response, error)`. -/
abbrev ClientResult := Option ApplicationClient × Option Response × Option GoError

/-- Result triple of `GetClients`: `(*[]ApplicationClient, *Response, error)`;
the outer `Option` models the nil pointer. -/
abbrev ListClientsResult := Option (List ApplicationClient) × Option Response × Option GoError

/-- Result triple of operations returning `(bool, *Response, error)`. -/
abbrev BoolResult := Bool × Option Response × Option GoError

/-- The inline bundle struct of `GetClients` (clients_service.go:144-147). -/
structure ClientBundle where
  total : Nat
  entry : List ApplicationClient
deriving Repr, DecidableEq

/-- `fmt.Sscanf(loc, "/authorize/identity/Client/%s", &id)` (clients_service.go:85):
`some id` when the scan counts one item, `none` when it counts zero.  The literal
prefix must match at the start of the input; `%s` then skips leading blanks and
scans a non-empty maximal run of non-whitespace characters. -/
def sscanfClientID (loc : String) : Option String :=
  let pre := "/authorize/identity/Client/".data
  let cs := loc.data
  if pre.isPrefixOf cs then
    let rest := (cs.drop pre.length).dropWhile fun c => c = ' ' ∨ c = '\t'
    let tok := rest.takeWhile fun c => ¬ c.isWhitespace
    if tok.isEmpty then none else some (String.mk tok)
  else none

/-- `ClientsService.DeleteClient` (clients_service.go:101-115): deleted is true
exactly when the response is non-nil with status 204; otherwise the transport
error (possibly nil) is passed through. -/
def deleteClient (ac : ApplicationClient) (env : CallEnv Unit) :
    BoolResult × List Request :=
  match env.build with
  | some e => ((false, none, some e), [])
  | none =>
    let req : Request :=
      ⟨"IDM", "DELETE", "authorize/identity/Client/" ++ ac.ID, .empty⟩
    let res : BoolResult :=
      match env.outcome.resp with
      | none => (false, none, env.outcome.err)
      | some r =>
        if r.statusCode ≠ 204 then (false, some r, env.outcome.err)
        else (true, some r, none)
    (res, [req])

/-- `ClientsService.UpdateScopes` (clients_service.go:157-181).  When `do`
returns a nil error together with a nil response the Go source dereferences the
nil response (`resp.StatusCode`), marked here by `runtimePanic`. -/
def updateScopes (ac : ApplicationClient) (scopes defaultScopes : List String)
    (env : CallEnv Unit) : BoolResult × List Request :=
  match env.build with
  | some e => ((false, none, some e), [])
  | none =>
    let req : Request :=
      ⟨"IDM", "PUT", "authorize/identity/Client/" ++ ac.ID ++ "/$scopes",
        .scopesPayload scopes defaultScopes⟩
    let res : BoolResult :=
      match env.outcome.err with
      | some e => (false, env.outcome.resp, some e)
      | none =>
        match env.outcome.resp with
        | none => (false, none, some .runtimePanic)
        | some r =>
          if r.statusCode ≠ 204 then (false, some r, some .errOperationFailed)
          else (true, some r, none)
    (res, [req])

/-- `ClientsService.GetClients` (clients_service.go:136-154): on a nil `do`
error it returns a pointer to the decoded `Entry` slice together with the nil
error; it performs no inspection of `Total` or of the status code. -/
def getClients (env : CallEnv ClientBundle) :
    ListClientsResult × List Request :=
  match env.build with
  | some e => ((none, none, some e), [])
  | none =>
    let req : Request := ⟨"IDM", "GET", "authorize/identity/Client", .empty⟩
    match env.outcome.err with
    | some e => ((none, env.outcome.resp, some e), [req])
    | none => ((some env.outcome.body.entry, env.outcome.resp, none), [req])

/-- `ClientsService.GetClientByID` (clients_service.go:118-133): delegates to
`GetClients` with an ID filter; a nil slice pointer yields `ErrOperationFailed`,
an empty slice yields wrapped `ErrEmptyResults`, otherwise the first element. -/
def getClientByID (env : CallEnv ClientBundle) :
    ClientResult × List Request :=
  let g := getClients env
  match g.1.2.2 with
  | some e => ((none, g.1.2.1, some e), g.2)
  | none =>
    match g.1.1 with
    | none => ((none, g.1.2.1, some .errOperationFailed), g.2)
    | some clients =>
      match clients with
      | [] => ((none, g.1.2.1, some (.wrapped "GetClientByID" .errEmptyResults)), g.2)
      | c :: _ => ((some c, g.1.2.1, none), g.2)

/-- The client as CreateClient POSTs it: scope fields stripped
(clients_service.go:65-68). -/
def stripScopes (ac : ApplicationClient) : ApplicationClient :=
  { ac with Scopes := [], DefaultScopes := [] }

/-- The stripped client with the scanned `id` assigned (clients_service.go:89). -/
def strippedWithID (ac : ApplicationClient) (id : String) : ApplicationClient :=
  { ac with Scopes := [], DefaultScopes := [], ID := id }

/-- Environment of `CreateClient`: the POST (whose build error the source
discards with `req, _ :=`), and the sub-environments of the `UpdateScopes`,
`DeleteClient` and `GetClientByID` calls it may make. -/
structure CreateClientEnv where
  postBuild : Option GoError
  post : DoOutcome ApplicationClient
  scopesCall : CallEnv Unit
  deleteCall : CallEnv Unit
  getCall : CallEnv ClientBundle
deriving Repr, DecidableEq

/-- `ClientsService.CreateClient` (clients_service.go:59-98).  Mirrors the
source: validation first; scope fields stripped from the payload; the
`newRequest` error discarded (`req, _ :=`, line 70) so the POST proceeds
regardless; non-200/201 or nil response returned as-is (the `resp == nil`
re-check on lines 81-83 is unreachable and omitted); Location scanned via
`sscanfClientID`, failure yielding wrapped `ErrCouldNoReadResourceAfterCreate`;
when the saved `scopes` list is non-empty, `UpdateScopes` runs, and on its
failure `DeleteClient` is invoked with all three results discarded and the
wrapped UpdateScopes error returned; finally `GetClientByID`. -/
def createClient (ac : ApplicationClient) (env : CreateClientEnv) :
    ClientResult × List Request :=
  if validateApplicationClient ac = [] then
    let scopes := ac.Scopes
    let defaultScopes := ac.DefaultScopes
    let postReq : Request :=
      ⟨"IDM", "POST", "authorize/identity/Client", .clientPayload (stripScopes ac)⟩
    match env.post.resp with
    | none => ((none, none, env.post.err), [postReq])
    | some r =>
      if r.statusCode = 200 ∨ r.statusCode = 201 then
        match sscanfClientID r.location with
        | none =>
          ((none, some r,
            some (.wrapped "CreateClient" .errCouldNoReadResourceAfterCreate)), [postReq])
        | some id =>
          if 0 < scopes.length then
            let us := updateScopes (strippedWithID ac id) scopes defaultScopes env.scopesCall
            match us.1.2.2 with
            | some e =>
              let del := deleteClient (strippedWithID ac id) env.deleteCall
              ((none, us.1.2.1, some (.wrapped "CreateClient.UpdateScopes" e)),
                postReq :: us.2 ++ del.2)
            | none =>
              let g := getClientByID env.getCall
              (g.1, postReq :: us.2 ++ g.2)
          else
            let g := getClientByID env.getCall
            (g.1, postReq :: g.2)
      else ((none, some r, env.post.err), [postReq])
  else ((none, none, some (.validationError (validateApplicationClient ac))), [])

/-- `ClientsService.UpdateClient` (clients_service.go:184-201). -/
def updateClient (ac : ApplicationClient) (env : CallEnv ApplicationClient) :
    ClientResult × List Request :=
  if validateApplicationClient ac = [] then
    match env.build with
    | some e => ((none, none, some e), [])
    | none =>
      let req : Request :=
        ⟨"IDM", "PUT", "authorize/identity/Client/" ++ ac.ID, .clientPayload ac⟩
      match env.outcome.err with
      | some e => ((none, env.outcome.resp, some e), [req])
      | none => ((some env.outcome.body, env.outcome.resp, none), [req])
  else ((none, none, some (.validationError (validateApplicationClient ac))), [])

/-! ## Notification producer service (producer_service.go) -/

/-- Result triple of `CreateProducer`: `(*Producer, *Response, error)`. -/
abbrev ProducerResult := Option Producer × Option Response × Option GoError

/-- Result triple of `GetProducers`: `([]*Producer, *Response, error)`; the
outer `Option` distinguishes the nil slice from a non-nil one. -/
abbrev ListProducersResult := Option (List Producer) × Option Response × Option GoError

/-- Outcome of `json.Unmarshal(e.Resource, c)` for one bundle entry: the entry
payloads are opaque JSON, so the environment supplies each decode result. -/
inductive EntryDecode where
  | ok (p : Producer)
  | fail (e : GoError)
deriving Repr, DecidableEq

/-- `internal.Bundle` as `GetProducers` consumes it: the total count and the
per-entry decode outcomes. -/
structure NotificationBundle where
  total : Nat
  entry : List EntryDecode
deriving Repr, DecidableEq

/-- The entry loop of `GetProducers` (producer_service.go:83-90): the first
failing `json.Unmarshal` aborts with its error, otherwise the decoded
producers in order. -/
def decodeEntries : List EntryDecode → Except GoError (List Producer)
  | [] => Except.ok []
  | .fail e :: _ => Except.error e
  | .ok p :: rest => (decodeEntries rest).map fun ps => p :: ps

/-- `ProducerService.CreateProducer` (producer_service.go:43-60): an `io.EOF`
decode error with a non-nil response is treated as success; a nil response with
a non-nil error becomes wrapped `ErrEmptyResult`. -/
def createProducer (p : Producer) (env : CallEnv Producer) :
    ProducerResult × List Request :=
  if validateProducer p = [] then
    match env.build with
    | some e => ((none, none, some e), [])
    | none =>
      let req : Request :=
        ⟨"Notification", "POST", "core/notification/Producer", .producerPayload p⟩
      if (env.outcome.err ≠ none ∧ env.outcome.err ≠ some .ioEOF) ∨
          env.outcome.resp = none then
        if env.outcome.resp = none ∧ env.outcome.err ≠ none then
          ((none, env.outcome.resp,
            some (.wrapped "CreateProducer" .errEmptyResult)), [req])
        else ((none, env.outcome.resp, env.outcome.err), [req])
      else ((some env.outcome.body, env.outcome.resp, none), [req])
  else ((none, none, some (.validationError (validateProducer p))), [])

/-- `ProducerService.GetProducers` (producer_service.go:62-92): a do error with
a 404 response becomes `ErrEmptyResult`; `total == 0` returns the still-nil
`producers` slice with `ErrEmptyResult` before any entry is decoded; otherwise
the entry loop runs (`none` models the nil slice `producers` keeps when no
append happened). -/
def getProducers (env : CallEnv NotificationBundle) :
    ListProducersResult × List Request :=
  match env.build with
  | some e => ((none, none, some e), [])
  | none =>
    let req : Request := ⟨"Notification", "GET", "core/notification/Producer", .empty⟩
    match env.outcome.err with
    | some e =>
      match env.outcome.resp with
      | some r =>
        if r.statusCode = 404 then ((none, some r, some .errEmptyResult), [req])
        else ((none, some r, some e), [req])
      | none => ((none, none, some e), [req])
    | none =>
      if env.outcome.body.total = 0 then
        ((none, env.outcome.resp, some .errEmptyResult), [req])
      else
        match decodeEntries env.outcome.body.entry with
        | .error e => ((none, env.outcome.resp, some e), [req])
        | .ok ps =>
          ((if ps.isEmpty then none else some ps, env.outcome.resp, none), [req])

/-- `ProducerService.DeleteProducer` (producer_service.go:94-108): any nil
response or non-204 status yields `(false, resp, nil)`; a 204 yields
`(true, resp, err)` with the transport error passed through. -/
def deleteProducer (p : Producer) (env : CallEnv Unit) :
    BoolResult × List Request :=
  match env.build with
  | some e => ((false, none, some e), [])
  | none =>
    let req : Request :=
      ⟨"Notification", "DELETE", "core/notification/Producer/" ++ p.ID, .empty⟩
    let res : BoolResult :=
      match env.outcome.resp with
      | none => (false, none, none)
      | some r =>
        if r.statusCode ≠ 204 then (false, some r, none)
        else (true, some r, env.outcome.err)
    (res, [req])

/-! ## internal.CheckResponse (status checking with body preservation) -/

/-- The readability state of a response body: either its full content can be
read, or reading it fails with an error message (`io.ReadAll` error). -/
inductive BodyState where
  | readable (content : String)
  | failing (errMsg : String)
deriving Repr, DecidableEq

/-- A raw `*http.Response` as `CheckResponse` sees it: the originating request
method and URI, the status code and the body stream. -/
structure RawResponse where
  method : String
  requestURI : String
  statusCode : Nat
  body : BodyState
deriving Repr, DecidableEq

/-- The byte slice `CheckResponse` ends up with after `io.ReadAll` and the
error fallback (`data = []byte(err.Error())`); the `data == nil` fallback to
"empty" is unreachable since `io.ReadAll` never returns a nil slice and
`[]byte(s)` is never nil. -/
def readBodyData (b : BodyState) : String :=
  match b with
  | .readable c => c
  | .failing m => m

/-- The success statuses of `internal.CheckResponse`. -/
def successStatuses : List Nat := [200, 201, 202, 204, 207, 304]

/-- The message of `fmt.Errorf("%s %s: StatusCode %d, Body: %s", r.Request.Method,
r.Request.RequestURI, r.StatusCode, string(data))`. -/
def checkResponseMessage (r : RawResponse) : String :=
  r.method ++ " " ++ r.requestURI ++ ": StatusCode " ++
    toString r.statusCode ++ ", Body: " ++ readBodyData r.body

/-- `internal.CheckResponse`: returns the error message (or none on a success
status) together with the response after the body was read and replaced by a
readable copy (`r.Body = io.NopCloser(bytes.NewBuffer(data))`). -/
def checkResponse (r : RawResponse) : Option String × RawResponse :=
  if r.statusCode ∈ successStatuses then (none, r)
  else
    (some (checkResponseMessage r), { r with body := .readable (readBodyData r.body) })

/-- `s` occurs inside `t` as a contiguous substring. -/
def substringOf (s t : String) : Prop := ∃ a b, t = a ++ s ++ b

/-! ## Request shorthands and concrete fixtures used in statements -/

/-- The POST request `CreateClient` issues (scopes stripped from the payload). -/
def createPostRequest (ac : ApplicationClient) : Request :=
  ⟨"IDM", "POST", "authorize/identity/Client", .clientPayload (stripScopes ac)⟩

/-- The `$scopes` follow-up request of `UpdateScopes`. -/
def scopesPutRequest (id : String) (scopes defaultScopes : List String) : Request :=
  ⟨"IDM", "PUT", "authorize/identity/Client/" ++ id ++ "/$scopes",
    .scopesPayload scopes defaultScopes⟩

/-- The DELETE request of `DeleteClient`. -/
def clientDeleteRequest (id : String) : Request :=
  ⟨"IDM", "DELETE", "authorize/identity/Client/" ++ id, .empty⟩

/-- The GET request of `GetClients`. -/
def clientsGetRequest : Request := ⟨"IDM", "GET", "authorize/identity/Client", .empty⟩

/-- The GET request of `GetProducers`. -/
def producersGetRequest : Request :=
  ⟨"Notification", "GET", "core/notification/Producer", .empty⟩

/-- The POST request of `CreateProducer`. -/
def producerPostRequest (p : Producer) : Request :=
  ⟨"Notification", "POST", "core/notification/Producer", .producerPayload p⟩

/-- The all-zero-values `ApplicationClient` (Go zero value). -/
def acZero : ApplicationClient :=
  { ID := "", ClientID := "", Type' := "", Name := "", Password := "",
    RedirectionURIs := [], ResponseTypes := [], Scopes := [], DefaultScopes := [],
    Disabled := false, Description := "", ApplicationID := "",
    GlobalReferenceID := "", ConsentImplied := false, AccessTokenLifetime := 0,
    RefreshTokenLifetime := 0, IDTokenLifetime := 0, Realms := [],
    MetaVersionID := "", MetaLastModified := "" }

/-- A validation-clean client without an ID, carrying both scope lists. -/
def acSample : ApplicationClient :=
  { acZero with ClientID := "client01", Name := "Sample Client",
                Password := "secret", Scopes := ["openid"], DefaultScopes := ["cn"],
                ApplicationID := "app-1", GlobalReferenceID := "gref-1" }

/-- A validation-clean client whose `Scopes` is empty while `DefaultScopes` is
not. -/
def acDefaultScopesOnly : ApplicationClient :=
  { acSample with Scopes := [], DefaultScopes := ["cn"] }

/-- A validation-clean client that has an ID but no password (update shape). -/
def acWithID : ApplicationClient :=
  { acSample with ID := "existing", Password := "", Realms := ["realm1"] }

/-- A validation-clean producer. -/
def pSample : Producer :=
  { ID := "prod-1", ResourceType := "Producer",
    ManagingOrganizationID := "org-1", ManagingOrganization := "Org",
    ProducerProductName := "product", ProducerServiceName := "service",
    ProducerServiceInstanceName := "instance",
    ProducerServiceBaseURL := "https://base", ProducerServicePathURL := "path",
    Description := "" }

/-- A 201 create response whose Location names the new client `newid`. -/
def createdResponse : Response :=
  { statusCode := 201, location := "/authorize/identity/Client/newid" }

/-- A successful `do` outcome for a scope update (204, no error). -/
def okScopesCall : CallEnv Unit :=
  ⟨none, ⟨some ⟨204, ""⟩, none, ()⟩⟩

/-- A transport-failing `do` outcome for a scope update. -/
def failingScopesCall : CallEnv Unit :=
  ⟨none, ⟨some ⟨500, ""⟩, some (.transportError "scope update failed"), ()⟩⟩

/-- A successful `do` outcome for the compensating delete (204). -/
def okDeleteCall : CallEnv Unit :=
  ⟨none, ⟨some ⟨204, ""⟩, none, ()⟩⟩

/-- A failing `do` outcome for the compensating delete (500 plus error). -/
def failingDeleteCall : CallEnv Unit :=
  ⟨none, ⟨some ⟨500, ""⟩, some (.transportError "delete failed"), ()⟩⟩

/-- A `GetClients` call environment that finds the created client. -/
def foundGetCall : CallEnv ClientBundle :=
  ⟨none, ⟨some ⟨200, ""⟩, none, ⟨1, [{ acSample with ID := "newid" }]⟩⟩⟩

/-- `CreateClient` environment for the happy path up to a failing scope
update, with a failing compensating delete: exercises the rollback branch. -/
def rollbackEnv : CreateClientEnv :=
  { postBuild := none,
    post := ⟨some createdResponse, none, acZero⟩,
    scopesCall := failingScopesCall,
    deleteCall := failingDeleteCall,
    getCall := foundGetCall }

/-- `CreateClient` environment whose POST answers 201 without any usable
Location header. -/
def noLocationEnv : CreateClientEnv :=
  { postBuild := none,
    post := ⟨some ⟨201, ""⟩, none, acZero⟩,
    scopesCall := okScopesCall,
    deleteCall := okDeleteCall,
    getCall := foundGetCall }

/-- `CreateClient` environment on the fully successful path. -/
def successEnv : CreateClientEnv :=
  { postBuild := none,
    post := ⟨some createdResponse, none, acZero⟩,
    scopesCall := okScopesCall,
    deleteCall := okDeleteCall,
    getCall := foundGetCall }

/-- `CreateClient` environment whose `newRequest` fails with a build error
which the source discards (`req, _ :=`), the POST then failing in transport. -/
def discardedBuildEnv : CreateClientEnv :=
  { postBuild := some (.buildError "bad request"),
    post := ⟨some ⟨500, ""⟩, some (.transportError "post failed"), acZero⟩,
    scopesCall := okScopesCall,
    deleteCall := okDeleteCall,
    getCall := foundGetCall }

/-- A `GetClients` environment delivering a well-formed bundle with
`total = 0` and no transport or decode error. -/
def totalZeroClientsEnv : CallEnv ClientBundle :=
  ⟨none, ⟨some ⟨200, ""⟩, none, ⟨0, []⟩⟩⟩

/-- A `GetProducers` environment delivering a well-formed bundle with
`total = 0`. -/
def totalZeroProducersEnv : CallEnv NotificationBundle :=
  ⟨none, ⟨some ⟨200, ""⟩, none, ⟨0, []⟩⟩⟩

/-- Modelled from the spec: `iam.Client.do` is not under src/ (only its callers
are); per the response-decoder contract a non-success status such as 404 yields
an error carrying the request method, target, status code and body.  This is
the `do` outcome `GetClients` observes for a 404 on the filtered list query. -/
def apiStatus404Outcome : DoOutcome ClientBundle :=
  ⟨some ⟨404, ""⟩,
    some (.apiStatusError "GET" "/authorize/identity/Client" 404 "not found"),
    ⟨0, []⟩⟩

/-- `GetClients` environment for a 404 on the filtered list query. -/
def notFoundClientsEnv : CallEnv ClientBundle := ⟨none, apiStatus404Outcome⟩

/-- `GetProducers` environment for a 404 on the filtered list query. -/
def notFoundProducersEnv : CallEnv NotificationBundle :=
  ⟨none, ⟨some ⟨404, ""⟩,
    some (.apiStatusError "GET" "/core/notification/Producer" 404 "not found"),
    ⟨0, []⟩⟩⟩

/-- `CreateProducer` environment: non-nil response whose body decoding stopped
at end-of-file (empty response body), decoded target left zero-valued. -/
def eofProducerEnv : CallEnv Producer :=
  ⟨none, ⟨some ⟨201, ""⟩, some .ioEOF,
    { ID := "", ResourceType := "", ManagingOrganizationID := "",
      ManagingOrganization := "", ProducerProductName := "",
      ProducerServiceName := "", ProducerServiceInstanceName := "",
      ProducerServiceBaseURL := "", ProducerServicePathURL := "",
      Description := "" }⟩⟩

/-- A 404 response with a readable body, for `CheckResponse`. -/
def rawNotFound : RawResponse :=
  { method := "GET", requestURI := "/store/fhir/x", statusCode := 404,
    body := .readable "resource not found" }

/-! ## Theorems -/

/-- C4: for both delete operations the boolean result is true exactly when the
request was built and the transport returned a non-nil response with status
204; every other status, and a nil response, yields false, independently of
the transport error. -/
theorem delete_success_iff_204 (ac : ApplicationClient) (p : Producer)
    (envC envP : CallEnv Unit) :
    ((deleteClient ac envC).1.1 = true ↔
      envC.build = none ∧ ∃ r, envC.outcome.resp = some r ∧ r.statusCode = 204)
    ∧ ((deleteProducer p envP).1.1 = true ↔
      envP.build = none ∧ ∃ r, envP.outcome.resp = some r ∧ r.statusCode = 204) := by
  constructor
  · rcases envC with ⟨build, resp, err, body⟩
    cases build with
    | some e => simp [deleteClient]
    | none =>
      cases resp with
      | none => simp [deleteClient]
      | some r =>
        by_cases h : r.statusCode = 204
        · simp [deleteClient, h]
        · simp [deleteClient, h]
  · rcases envP with ⟨build, resp, err, body⟩
    cases build with
    | some e => simp [deleteProducer]
    | none =>
      cases resp with
      | none => simp [deleteProducer]
      | some r =>
        by_cases h : r.statusCode = 204
        · simp [deleteProducer, h]
        · simp [deleteProducer, h]

/-- C10: when the transport returns a non-nil response and body decoding
reports `io.EOF`, `CreateProducer` treats the call as success: it returns the
decoded (possibly zero-valued) producer with a nil error. -/
theorem createProducer_eof_success
    (p : Producer) (env : CallEnv Producer) (r : Response)
    (hv : validateProducer p = [])
    (hb : env.build = none)
    (herr : env.outcome.err = some .ioEOF)
    (hresp : env.outcome.resp = some r) :
    createProducer p env =
      ((some env.outcome.body, some r, none), [producerPostRequest p]) := by
  rcases env with ⟨build, resp, err, body⟩
  simp only at hb herr hresp
  subst hb herr hresp
  simp [createProducer, hv, producerPostRequest]

/-- Witness for C10: a concrete producer created against a 201 response whose
empty body made decoding stop at EOF. -/
theorem createProducer_eof_success_witness :
    validateProducer pSample = [] ∧
    createProducer pSample eofProducerEnv =
      ((some eofProducerEnv.outcome.body, some ⟨201, ""⟩, none),
        [producerPostRequest pSample]) :=
  ⟨by decide, createProducer_eof_success pSample eofProducerEnv ⟨201, ""⟩
    (by decide) rfl rfl rfl⟩

/-- C7: `CheckResponse` treats exactly the statuses 200, 201, 202, 204, 207
and 304 as success; for any other status the error message is
`"<method> <target>: StatusCode <code>, Body: <body>"` — containing the
request method, the request target, the status code and the full body — and
the response body afterwards is a readable copy of that full body. -/
theorem checkResponse_status_and_body (r : RawResponse) :
    ((checkResponse r).1 = none ↔ r.statusCode ∈ successStatuses)
    ∧ (r.statusCode ∉ successStatuses →
        checkResponse r =
          (some (checkResponseMessage r),
            { r with body := .readable (readBodyData r.body) })
        ∧ substringOf r.method (checkResponseMessage r)
        ∧ substringOf r.requestURI (checkResponseMessage r)
        ∧ substringOf (toString r.statusCode) (checkResponseMessage r)
        ∧ substringOf (readBodyData r.body) (checkResponseMessage r)) := by
  constructor
  · by_cases h : r.statusCode ∈ successStatuses
    · simp [checkResponse, h]
    · simp [checkResponse, h]
  · intro h
    refine ⟨by simp [checkResponse, h], ?_, ?_, ?_, ?_⟩
    · exact ⟨"", " " ++ r.requestURI ++ ": StatusCode " ++ toString r.statusCode
        ++ ", Body: " ++ readBodyData r.body,
        by simp [checkResponseMessage, String.append_assoc]⟩
    · exact ⟨r.method ++ " ", ": StatusCode " ++ toString r.statusCode
        ++ ", Body: " ++ readBodyData r.body,
        by simp [checkResponseMessage, String.append_assoc]⟩
    · exact ⟨r.method ++ " " ++ r.requestURI ++ ": StatusCode ",
        ", Body: " ++ readBodyData r.body,
        by simp [checkResponseMessage, String.append_assoc]⟩
    · exact ⟨r.method ++ " " ++ r.requestURI ++ ": StatusCode "
        ++ toString r.statusCode ++ ", Body: ", "",
        by simp [checkResponseMessage, String.append_assoc]⟩

/-- Witness for C7: a concrete 404 response; the checker reports the formatted
message and the body stays readable. -/
theorem checkResponse_status_and_body_witness :
    (404 ∉ successStatuses)
    ∧ checkResponse rawNotFound =
        (some (checkResponseMessage rawNotFound),
          { rawNotFound with body := .readable (readBodyData rawNotFound.body) })
    ∧ substringOf (readBodyData rawNotFound.body) (checkResponseMessage rawNotFound) :=
  ⟨by decide,
    ((checkResponse_status_and_body rawNotFound).2 (by decide)).1,
    ((checkResponse_status_and_body rawNotFound).2 (by decide)).2.2.2.2⟩

/-- C8: with an empty `ID` and an empty `Password` the `required_without=ID`
constraint fires, so `CreateClient` rejects the resource with the validation
error before any transport call (empty trace); with a non-empty `ID` an empty
`Password` produces no violation of the `Password` field at all. -/
theorem createClient_password_required_without_id
    (ac : ApplicationClient) (env : CreateClientEnv)
    (hpw : ac.Password = "") :
    (ac.ID = "" →
      "Password.required_without" ∈ validateApplicationClient ac ∧
      createClient ac env =
        ((none, none, some (.validationError (validateApplicationClient ac))), []))
    ∧ (ac.ID ≠ "" → passwordViolations ac = []) := by
  constructor
  · intro hid
    have hv : passwordViolations ac = ["Password.required_without"] := by
      unfold passwordViolations
      rw [hid, hpw]
      decide
    have hmem : "Password.required_without" ∈ validateApplicationClient ac := by
      unfold validateApplicationClient
      rw [hv]
      simp
    have hne : validateApplicationClient ac ≠ [] := by
      intro hnil
      rw [hnil] at hmem
      exact absurd hmem (List.not_mem_nil _)
    exact ⟨hmem, by simp [createClient, hne]⟩
  · intro hid
    unfold passwordViolations
    rw [hpw]
    simp [firstViolation, requiredWithoutTag, maxLenTag, hid]

/-- Witness for C8: the zero-valued client (empty ID, empty password) is
rejected before any I/O, and a client with an ID set but no password has a
clean `Password` field. -/
theorem createClient_password_required_without_id_witness :
    ("Password.required_without" ∈ validateApplicationClient acZero ∧
      createClient acZero successEnv =
        ((none, none, some (.validationError (validateApplicationClient acZero))), []))
    ∧ passwordViolations acWithID = [] :=
  ⟨(createClient_password_required_without_id acZero successEnv rfl).1 rfl,
    (createClient_password_required_without_id acWithID successEnv rfl).2 (by decide)⟩

/-- C2: when the POST answers 200 or 201 but the Location header is absent
(`Header.Get` empty) or does not scan as `/authorize/identity/Client/<id>`,
`CreateClient` returns a nil resource together with the wrapped
`ErrCouldNoReadResourceAfterCreate` (the post-create invariant error); in
particular no resource — hence none with an empty identifier — is returned. -/
theorem createClient_location_invariant
    (ac : ApplicationClient) (env : CreateClientEnv) (r : Response)
    (hval : validateApplicationClient ac = [])
    (hresp : env.post.resp = some r)
    (hstatus : r.statusCode = 200 ∨ r.statusCode = 201)
    (hloc : sscanfClientID r.location = none) :
    createClient ac env =
      ((none, some r, some (.wrapped "CreateClient" .errCouldNoReadResourceAfterCreate)),
        [createPostRequest ac]) := by
  rcases env with ⟨pb, ⟨presp, perr, pbody⟩, sc, dc, gc⟩
  simp only at hresp
  subst hresp
  simp [createClient, hval, hstatus, hloc, createPostRequest]

/-- Witness for C2: a 201 create response with no Location header yields the
post-create invariant error and no resource. -/
theorem createClient_location_invariant_witness :
    validateApplicationClient acSample = [] ∧
    createClient acSample noLocationEnv =
      ((none, some ⟨201, ""⟩,
        some (.wrapped "CreateClient" .errCouldNoReadResourceAfterCreate)),
        [createPostRequest acSample]) :=
  ⟨by decide, createClient_location_invariant acSample noLocationEnv ⟨201, ""⟩
    (by decide) rfl (Or.inr rfl) (by decide)⟩

/-- C1: when the stripped scope list is non-empty and the mandatory
`UpdateScopes` follow-up fails with error `e`, `CreateClient` invokes the
compensating `DeleteClient` on the created resource (its DELETE request is in
the trace whenever its request builds) and returns a nil resource with the
wrapped follow-up error; the result is identical for every outcome of the
compensating delete, so the delete can neither replace nor mask that error. -/
theorem createClient_rollback_on_scope_update_failure
    (ac : ApplicationClient) (env : CreateClientEnv) (r : Response) (id : String)
    (e : GoError) (db : Option GoError) (ddo : DoOutcome Unit)
    (hval : validateApplicationClient ac = [])
    (hscopes : 0 < ac.Scopes.length)
    (hresp : env.post.resp = some r)
    (hstatus : r.statusCode = 200 ∨ r.statusCode = 201)
    (hloc : sscanfClientID r.location = some id)
    (hfail : (updateScopes (strippedWithID ac id) ac.Scopes ac.DefaultScopes
        env.scopesCall).1.2.2 = some e) :
    (createClient ac env).1 =
      (none,
        (updateScopes (strippedWithID ac id) ac.Scopes ac.DefaultScopes
          env.scopesCall).1.2.1,
        some (.wrapped "CreateClient.UpdateScopes" e))
    ∧ (env.deleteCall.build = none →
        clientDeleteRequest id ∈ (createClient ac env).2)
    ∧ (createClient ac { env with deleteCall := ⟨db, ddo⟩ }).1 =
        (createClient ac env).1 := by
  rcases env with ⟨pb, ⟨presp, perr, pbody⟩, sc, ⟨dcb, dco⟩, gc⟩
  simp only at hresp hfail
  subst hresp
  have hid : (strippedWithID ac id).ID = id := rfl
  refine ⟨?_, ?_, ?_⟩
  · simp [createClient, hval, hscopes, hstatus, hloc, hfail]
  · intro hdb
    simp only at hdb
    subst hdb
    simp [createClient, hval, hscopes, hstatus, hloc, hfail, deleteClient,
      clientDeleteRequest, hid]
  · simp [createClient, hval, hscopes, hstatus, hloc, hfail]

/-- Witness for C1: a concrete create whose scope update fails in transport;
the rollback DELETE is issued, the wrapped follow-up error is returned, and
swapping in a successful delete environment leaves the result unchanged. -/
theorem createClient_rollback_on_scope_update_failure_witness :
    (createClient acSample rollbackEnv).1 =
      (none, some ⟨500, ""⟩,
        some (.wrapped "CreateClient.UpdateScopes"
          (.transportError "scope update failed")))
    ∧ clientDeleteRequest "newid" ∈ (createClient acSample rollbackEnv).2
    ∧ (createClient acSample { rollbackEnv with deleteCall := okDeleteCall }).1 =
        (createClient acSample rollbackEnv).1 := by
  obtain ⟨h1, h2, h3⟩ := createClient_rollback_on_scope_update_failure acSample
    rollbackEnv createdResponse "newid" (.transportError "scope update failed")
    okDeleteCall.build okDeleteCall.outcome
    (by decide) (by decide) rfl (Or.inr rfl) (by decide) (by decide)
  exact ⟨h1.trans (by decide), h2 rfl, h3⟩

/-- C6 (amended): the POSTed payload always carries empty `Scopes` and
`DefaultScopes` (the trace head is the POST with the stripped client); the
`UpdateScopes` follow-up with the original stripped values is issued whenever
the original `Scopes` list was non-empty — but when `Scopes` is empty the
follow-up is skipped entirely (the trace goes straight to the re-fetch), even
if `DefaultScopes` was non-empty. -/
theorem createClient_scope_stripping
    (ac : ApplicationClient) (env : CreateClientEnv) (r : Response) (id : String)
    (hval : validateApplicationClient ac = [])
    (hresp : env.post.resp = some r)
    (hstatus : r.statusCode = 200 ∨ r.statusCode = 201)
    (hloc : sscanfClientID r.location = some id) :
    ((createClient ac env).2).head? = some (createPostRequest ac)
    ∧ (0 < ac.Scopes.length → env.scopesCall.build = none →
        scopesPutRequest id ac.Scopes ac.DefaultScopes ∈ (createClient ac env).2)
    ∧ (ac.Scopes = [] →
        (createClient ac env).2 =
          createPostRequest ac :: (getClientByID env.getCall).2) := by
  rcases env with ⟨pb, ⟨presp, perr, pbody⟩, sc, dc, gc⟩
  simp only at hresp
  subst hresp
  have hid : (strippedWithID ac id).ID = id := rfl
  refine ⟨?_, ?_, ?_⟩
  · by_cases hs : 0 < ac.Scopes.length
    · cases hus : (updateScopes (strippedWithID ac id) ac.Scopes ac.DefaultScopes
          sc).1.2.2 with
      | none => simp [createClient, hval, hstatus, hloc, hs, hus, createPostRequest]
      | some e => simp [createClient, hval, hstatus, hloc, hs, hus, createPostRequest]
    · simp [createClient, hval, hstatus, hloc, hs, createPostRequest]
  · intro hs hscb
    rcases sc with ⟨scb, sco⟩
    simp only at hscb
    subst hscb
    have htr : (updateScopes (strippedWithID ac id) ac.Scopes ac.DefaultScopes
        ⟨none, sco⟩).2 = [scopesPutRequest id ac.Scopes ac.DefaultScopes] := by
      simp [updateScopes, scopesPutRequest, hid]
    cases hus : (updateScopes (strippedWithID ac id) ac.Scopes ac.DefaultScopes
        ⟨none, sco⟩).1.2.2 with
    | none => simp [createClient, hval, hstatus, hloc, hs, hus, htr]
    | some e => simp [createClient, hval, hstatus, hloc, hs, hus, htr]
  · intro hsc
    simp [createClient, hval, hstatus, hloc, hsc, createPostRequest]

/-- Counterexample to C6 as stated: a client whose `Scopes` is empty while
`DefaultScopes` is `["cn"]` (non-empty, and stripped from the POST) completes
a create whose full trace is just the POST and the re-fetch GET — no follow-up
scope-update request is ever issued — and no error is reported. -/
theorem createClient_defaultScopes_only_counterexample :
    acDefaultScopesOnly.DefaultScopes = ["cn"]
    ∧ (createClient acDefaultScopesOnly successEnv).2 =
        [createPostRequest acDefaultScopesOnly, clientsGetRequest]
    ∧ (createClient acDefaultScopesOnly successEnv).1.2.2 = none := by decide

/-- Witness for C6: a concrete create with non-empty scopes POSTs the stripped
payload and issues the follow-up with the originals; one with empty `Scopes`
goes straight to the re-fetch. -/
theorem createClient_scope_stripping_witness :
    ((createClient acSample successEnv).2).head? = some (createPostRequest acSample)
    ∧ scopesPutRequest "newid" acSample.Scopes acSample.DefaultScopes
        ∈ (createClient acSample successEnv).2
    ∧ (createClient acDefaultScopesOnly successEnv).2 =
        createPostRequest acDefaultScopesOnly :: (getClientByID successEnv.getCall).2 := by
  obtain ⟨h1, h2, -⟩ := createClient_scope_stripping acSample successEnv
    createdResponse "newid" (by decide) rfl (Or.inr rfl) (by decide)
  obtain ⟨-, -, h3⟩ := createClient_scope_stripping acDefaultScopesOnly successEnv
    createdResponse "newid" (by decide) rfl (Or.inr rfl) (by decide)
  exact ⟨h1, h2 (by decide) rfl, h3 rfl⟩

/-- C3 (amended): on a well-formed bundle with `total = 0`, `GetProducers`
returns `ErrEmptyResult` with the still-nil (length-zero) producer slice and
can never reach the entry-decode loop; `GetClients` does not inspect `total` —
it returns the decoded (empty) entry slice with a nil error — and the
empty-result condition for clients is raised by its caller `GetClientByID`,
as wrapped `ErrEmptyResults`, when the entry sequence is empty. -/
theorem bundle_total_zero_behavior
    (envP : CallEnv NotificationBundle) (envG : CallEnv ClientBundle)
    (hPb : envP.build = none) (hPerr : envP.outcome.err = none)
    (hPtot : envP.outcome.body.total = 0)
    (hGb : envG.build = none) (hGerr : envG.outcome.err = none)
    (hGent : envG.outcome.body.entry = []) :
    getProducers envP =
      ((none, envP.outcome.resp, some .errEmptyResult), [producersGetRequest])
    ∧ getClients envG = ((some [], envG.outcome.resp, none), [clientsGetRequest])
    ∧ (getClientByID envG).1 =
        (none, envG.outcome.resp, some (.wrapped "GetClientByID" .errEmptyResults)) := by
  rcases envP with ⟨pb, ⟨presp, perr, ⟨ptot, pent⟩⟩⟩
  rcases envG with ⟨gb, ⟨gresp, gerr, ⟨gtot, gent⟩⟩⟩
  simp only at hPb hPerr hPtot hGb hGerr hGent
  subst hPb hPerr hPtot hGb hGerr hGent
  refine ⟨?_, ?_, ?_⟩
  · simp [getProducers, producersGetRequest]
  · simp [getClients, clientsGetRequest]
  · simp [getClientByID, getClients, clientsGetRequest]

/-- Counterexample to C3 as stated: on a well-formed `total = 0` bundle with
no transport error, `GetClients` — one of the two cited list operations —
returns a nil error, not the empty-result error. -/
theorem getClients_total_zero_counterexample :
    (getClients totalZeroClientsEnv).1 = (some [], some ⟨200, ""⟩, none)
    ∧ (getClients totalZeroClientsEnv).1.2.2 ≠ some .errEmptyResults
    ∧ (getClients totalZeroClientsEnv).1.2.2 ≠ some .errEmptyResult := by decide

/-- Witness for C3: concrete `total = 0` bundles for both services. -/
theorem bundle_total_zero_behavior_witness :
    getProducers totalZeroProducersEnv =
      ((none, some ⟨200, ""⟩, some .errEmptyResult), [producersGetRequest])
    ∧ getClients totalZeroClientsEnv =
        ((some [], some ⟨200, ""⟩, none), [clientsGetRequest])
    ∧ (getClientByID totalZeroClientsEnv).1 =
        (none, some ⟨200, ""⟩, some (.wrapped "GetClientByID" .errEmptyResults)) :=
  bundle_total_zero_behavior totalZeroProducersEnv totalZeroClientsEnv
    rfl rfl rfl rfl rfl rfl

/-- C5 (amended): a 404 on the filtered list query is translated to
`ErrEmptyResult` by `GetProducers` only; `GetClients` passes the transport
layer's error through unchanged, whatever the status code says. -/
theorem list_404_behavior
    (envP : CallEnv NotificationBundle) (envG : CallEnv ClientBundle)
    (e f : GoError) (r s : Response)
    (hPb : envP.build = none) (hPerr : envP.outcome.err = some e)
    (hPresp : envP.outcome.resp = some r) (hP404 : r.statusCode = 404)
    (hGb : envG.build = none) (hGerr : envG.outcome.err = some f)
    (hGresp : envG.outcome.resp = some s) :
    getProducers envP = ((none, some r, some .errEmptyResult), [producersGetRequest])
    ∧ getClients envG = ((none, some s, some f), [clientsGetRequest]) := by
  rcases envP with ⟨pb, ⟨presp, perr, pbody⟩⟩
  rcases envG with ⟨gb, ⟨gresp, gerr, gbody⟩⟩
  simp only at hPb hPerr hPresp hGb hGerr hGresp
  subst hPb hPerr hPresp hGb hGerr hGresp
  refine ⟨?_, ?_⟩
  · simp [getProducers, producersGetRequest, hP404]
  · simp [getClients, clientsGetRequest]

/-- Counterexample to C5 as stated: on a 404 list response (whose `do` error
is the status error the decoder contract prescribes), `GetClients` returns
that generic API status error, not an empty-result error. -/
theorem getClients_404_counterexample :
    (getClients notFoundClientsEnv).1.2.2
      = some (.apiStatusError "GET" "/authorize/identity/Client" 404 "not found")
    ∧ (getClients notFoundClientsEnv).1.2.2 ≠ some .errEmptyResults
    ∧ (getClients notFoundClientsEnv).1.2.2 ≠ some .errEmptyResult := by decide

/-- Witness for C5: concrete 404 responses on both list queries. -/
theorem list_404_behavior_witness :
    getProducers notFoundProducersEnv =
      ((none, some ⟨404, ""⟩, some .errEmptyResult), [producersGetRequest])
    ∧ getClients notFoundClientsEnv =
        ((none, some ⟨404, ""⟩,
          some (.apiStatusError "GET" "/authorize/identity/Client" 404 "not found")),
          [clientsGetRequest]) :=
  list_404_behavior notFoundProducersEnv notFoundClientsEnv
    (.apiStatusError "GET" "/core/notification/Producer" 404 "not found")
    (.apiStatusError "GET" "/authorize/identity/Client" 404 "not found")
    ⟨404, ""⟩ ⟨404, ""⟩ rfl rfl rfl rfl rfl rfl rfl

/-- C9 (amended): every operation that checks its `newRequest` error —
`DeleteClient`, `UpdateScopes`, `GetClients`, `UpdateClient`,
`CreateProducer`, `GetProducers`, `DeleteProducer` — returns the build error
with an empty transport trace (no I/O); `CreateClient` is the exception: it
discards the build error (`req, _ :=`) and proceeds, which the accompanying
counterexample exhibits. -/
theorem build_error_short_circuit
    (ac : ApplicationClient) (p : Producer) (e : GoError)
    (scopes defaultScopes : List String)
    (envU : CallEnv Unit) (envC : CallEnv ClientBundle)
    (envA : CallEnv ApplicationClient) (envPr : CallEnv Producer)
    (envN : CallEnv NotificationBundle) (envD : CallEnv Unit)
    (hU : envU.build = some e) (hC : envC.build = some e) (hA : envA.build = some e)
    (hPr : envPr.build = some e) (hN : envN.build = some e) (hD : envD.build = some e)
    (hvc : validateApplicationClient ac = []) (hvp : validateProducer p = []) :
    deleteClient ac envU = ((false, none, some e), [])
    ∧ updateScopes ac scopes defaultScopes envU = ((false, none, some e), [])
    ∧ getClients envC = ((none, none, some e), [])
    ∧ updateClient ac envA = ((none, none, some e), [])
    ∧ createProducer p envPr = ((none, none, some e), [])
    ∧ getProducers envN = ((none, none, some e), [])
    ∧ deleteProducer p envD = ((false, none, some e), []) := by
  rcases envU with ⟨ub, uo⟩
  rcases envC with ⟨cb, co⟩
  rcases envA with ⟨ab, ao⟩
  rcases envPr with ⟨prb, pro⟩
  rcases envN with ⟨nb, no⟩
  rcases envD with ⟨db, dz⟩
  simp only at hU hC hA hPr hN hD
  subst hU hC hA hPr hN hD
  refine ⟨?_, ?_, ?_, ?_, ?_, ?_, ?_⟩
  · simp [deleteClient]
  · simp [updateScopes]
  · simp [getClients]
  · simp [updateClient, hvc]
  · simp [createProducer, hvp]
  · simp [getProducers]
  · simp [deleteProducer]

/-- Counterexample to C9 as stated: `CreateClient` with a failing request
build still performs the POST (non-empty trace) and returns the transport
error of that POST, never the discarded build error. -/
theorem createClient_build_error_counterexample :
    discardedBuildEnv.postBuild = some (.buildError "bad request")
    ∧ (createClient acSample discardedBuildEnv).1 =
        (none, some ⟨500, ""⟩, some (.transportError "post failed"))
    ∧ (createClient acSample discardedBuildEnv).1.2.2 ≠ some (.buildError "bad request")
    ∧ (createClient acSample discardedBuildEnv).2 = [createPostRequest acSample] := by
  decide

/-- Witness for C9: concrete build failures short-circuit `DeleteClient`,
`GetClients` and `CreateProducer` with the build error and no I/O. -/
theorem build_error_short_circuit_witness :
    deleteClient acSample ⟨some (.buildError "boom"), ⟨none, none, ()⟩⟩ =
      ((false, none, some (.buildError "boom")), [])
    ∧ getClients ⟨some (.buildError "boom"), ⟨none, none, ⟨0, []⟩⟩⟩ =
      ((none, none, some (.buildError "boom")), [])
    ∧ createProducer pSample ⟨some (.buildError "boom"), ⟨none, none, pSample⟩⟩ =
      ((none, none, some (.buildError "boom")), []) := by
  obtain ⟨h1, h2, h3, h4, h5, h6, h7⟩ := build_error_short_circuit acSample pSample
    (.buildError "boom") [] []
    ⟨some (.buildError "boom"), ⟨none, none, ()⟩⟩
    ⟨some (.buildError "boom"), ⟨none, none, ⟨0, []⟩⟩⟩
    ⟨some (.buildError "boom"), ⟨none, none, acZero⟩⟩
    ⟨some (.buildError "boom"), ⟨none, none, pSample⟩⟩
    ⟨some (.buildError "boom"), ⟨none, none, ⟨0, []⟩⟩⟩
    ⟨some (.buildError "boom"), ⟨none, none, ()⟩⟩
    rfl rfl rfl rfl rfl rfl (by decide) (by decide)
  exact ⟨h1, h3, h5⟩
